import Mathlib

/-!
Shallow embedding of `src/app/main.py` (Self-Hosting Hub API).

The MongoDB document store is modelled as three lists of documents
(guides, categories, subscribers).  Every store primitive used by the
handlers (count_documents, find_one, find, aggregate, insert_one) is
embedded as an explicit state-passing function `Store → result × Store`;
read primitives return the store unchanged, `insert_one` appends the
document.  Timestamps and ObjectIds are modelled as `Nat`; strings stay
strings.  The `category_id` field of a guide document is dynamic
(undeclared in the pydantic schema), so it is an `Option Nat`: `none`
means the field is absent from the document.
-/

/-- `Tag` pydantic model: `{name, color}` (embedded in a guide). -/
structure Tag where
  name : String
  color : String
deriving DecidableEq

/-- A document of the `guides` collection.  Fields mirror the seeded
documents / the `Guide` pydantic model; `category_id` is the dynamic
field consulted by `get_categories`. -/
structure GuideDoc where
  oid : Nat
  title : String
  description : String
  content : Option String
  icon : String
  color : String
  tags : List Tag
  featured : Bool
  category_id : Option Nat
  created_at : Nat
  updated_at : Nat
deriving DecidableEq

/-- A document of the `categories` collection. -/
structure CategoryDoc where
  oid : Nat
  name : String
  description : String
  icon : String
  color : String
deriving DecidableEq

/-- The response shape produced by `get_categories`:
`{**category, "id": str(category[_id]), "guide_count": guide_count}`. -/
structure CategoryOut where
  id : Nat
  name : String
  description : String
  icon : String
  color : String
  guide_count : Nat
deriving DecidableEq

/-- A document of the `subscribers` collection. -/
structure SubscriberDoc where
  email : String
  subscribed_at : Nat
deriving DecidableEq

/-- `Stats` pydantic model. -/
structure Stats where
  guides : Nat
  categories : Nat
  technologies : Nat
deriving DecidableEq

/-- The three collections of the `self_hosting_hub` database. -/
structure Store where
  guides : List GuideDoc
  categories : List CategoryDoc
  subscribers : List SubscriberDoc
deriving DecidableEq

/-- `HTTPException` outcomes raised by the handlers, with their
`status_code` and `detail`. -/
inductive HTTPError where
  | badRequest (detail : String)
  | notFound (detail : String)
  | internalError (detail : String)
  | validationError (detail : String)
deriving DecidableEq

/-- Status code carried by each `HTTPException` variant. -/
def HTTPError.statusCode : HTTPError → Nat
  | badRequest _ => 400
  | notFound _ => 404
  | internalError _ => 500
  | validationError _ => 422

/-- HTTP status of a subscribe response: the decorator declares
`status_code=201` for the success body, errors carry their own code. -/
def subscribeStatus (r : Except HTTPError String) : Nat :=
  match r with
  | .ok _ => 201
  | .error e => e.statusCode

/- ## Document store adapter primitives -/

/-- `db.guides.count_documents(filter)`: a read, store unchanged. -/
def guidesCountDocuments (s : Store) (p : GuideDoc → Bool) : Nat × Store :=
  (s.guides.countP p, s)

/-- `db.categories.count_documents(filter)`: a read, store unchanged. -/
def categoriesCountDocuments (s : Store) (p : CategoryDoc → Bool) : Nat × Store :=
  (s.categories.countP p, s)

/-- `db.guides.find_one(filter)`: first matching document, store unchanged. -/
def guidesFindOne (s : Store) (p : GuideDoc → Bool) : Option GuideDoc × Store :=
  (s.guides.find? p, s)

/-- `db.subscribers.find_one(filter)`: first matching document, store unchanged. -/
def subscribersFindOne (s : Store) (p : SubscriberDoc → Bool) : Option SubscriberDoc × Store :=
  (s.subscribers.find? p, s)

/-- `db.categories.find()` with no filter: all documents in natural
(insertion) order, store unchanged. -/
def categoriesFind (s : Store) : List CategoryDoc × Store :=
  (s.categories, s)

/-- `db.subscribers.insert_one(doc)`: appends the document; the
`inserted_id` the driver reports is supplied by the environment as an
`Option Nat` (the handler tests it for truthiness). -/
def subscribersInsertOne (s : Store) (doc : SubscriberDoc) (insertedId : Option Nat) :
    Option Nat × Store :=
  (insertedId, { s with subscribers := s.subscribers ++ [doc] })

/- ## Aggregation pipeline of get_unique_technologies_count -/

/-- Stage `\x7b"$unwind": "$tags"\x7d`: one output document per (guide, tag)
pair, in document order. -/
def unwindTags (guides : List GuideDoc) : List (GuideDoc × Tag) :=
  guides.flatMap fun g => g.tags.map fun t => (g, t)

/-- Stage `\x7b"$group": \x7b"_id": "$tags.name"\x7d\x7d`: one group per distinct
tag name. -/
def groupByTagName (docs : List (GuideDoc × Tag)) : List String :=
  (docs.map fun d => d.2.name).dedup

/-- Stage `\x7b"$count": "count"\x7d`: emits a single count document, or no
document at all when the incoming stream is empty. -/
def countStage (groups : List String) : List Nat :=
  match groups with
  | [] => []
  | gs => [gs.length]

/-- `get_unique_technologies_count`: runs the three-stage pipeline on the
guides collection and returns `result[0]["count"] if result else 0`. -/
def get_unique_technologies_count (s : Store) : Nat × Store :=
  let result := countStage (groupByTagName (unwindTags s.guides))
  (match result with
   | [] => 0
   | c :: _ => c, s)

/- ## Helper reads -/

/-- `get_guide_count`: `db.guides.count_documents(\x7b\x7d)`. -/
def get_guide_count (s : Store) : Nat × Store :=
  guidesCountDocuments s fun _ => true

/-- `get_category_count`: `db.categories.count_documents(\x7b\x7d)`. -/
def get_category_count (s : Store) : Nat × Store :=
  categoriesCountDocuments s fun _ => true

/- ## Endpoints -/

/-- `GET /stats`: composes the three reads into a `Stats` value. -/
def get_stats (s : Store) : Stats × Store :=
  let (g, s1) := get_guide_count s
  let (c, s2) := get_category_count s1
  let (t, s3) := get_unique_technologies_count s2
  ({ guides := g, categories := c, technologies := t }, s3)

/-- `GET /guides/featured`: `find_one(\x7b"featured": True\x7d)`; raises 404
when no document matches. -/
def get_featured_guide (s : Store) : Except HTTPError GuideDoc × Store :=
  let (g?, s1) := guidesFindOne s fun g => g.featured
  match g? with
  | none => (.error (.notFound "No featured guide found"), s1)
  | some g => (.ok g, s1)

/-- The per-category body of the `get_categories` loop: for each category,
`db.guides.count_documents(\x7b"category_id": str(category[_id])\x7d)`, then
the enriched response document is appended. -/
def get_categories_loop (cats : List CategoryDoc) (s : Store) : List CategoryOut × Store :=
  match cats with
  | [] => ([], s)
  | c :: rest =>
    let (n, s1) := guidesCountDocuments s fun g => g.category_id == some c.oid
    let (out, s2) := get_categories_loop rest s1
    ({ id := c.oid, name := c.name, description := c.description,
       icon := c.icon, color := c.color, guide_count := n } :: out, s2)

/-- `GET /categories`: iterates `db.categories.find()` enriching each
category with its live guide count. -/
def get_categories (s : Store) : List CategoryOut × Store :=
  let (cats, s1) := categoriesFind s
  get_categories_loop cats s1

/-- Stable insertion of a guide into a list sorted by `created_at`
descending (model of the store's `.sort("created_at", -1)`). -/
def insertByCreatedAtDesc (g : GuideDoc) : List GuideDoc → List GuideDoc
  | [] => [g]
  | h :: t => if h.created_at < g.created_at then g :: h :: t else h :: insertByCreatedAtDesc g t

/-- Sort guides by `created_at` descending (stable). -/
def sortByCreatedAtDesc : List GuideDoc → List GuideDoc
  | [] => []
  | h :: t => insertByCreatedAtDesc h (sortByCreatedAtDesc t)

/-- MongoDB `cursor.limit(n)` semantics: a limit of `0` is equivalent to
setting no limit; a positive limit truncates to the first `n` documents. -/
def mongoLimit (n : Nat) (xs : List α) : List α :=
  if n = 0 then xs else xs.take n

/-- `db.guides.find().sort("created_at", -1).limit(limit)`: a read,
store unchanged. -/
def guidesFindSortLimit (s : Store) (limit : Nat) : List GuideDoc × Store :=
  (mongoLimit limit (sortByCreatedAtDesc s.guides), s)

/-- `GET /guides/latest`: collects the cursor's documents in order. -/
def get_latest_guides (s : Store) (limit : Nat) : List GuideDoc × Store :=
  guidesFindSortLimit s limit

/-- `GET /guides/latest` with the `limit` query parameter omitted: the
handler signature declares the default `limit: int = 2`. -/
def get_latest_guides_default (s : Store) : List GuideDoc × Store :=
  get_latest_guides s 2

/-- `POST /newsletter/subscribe` handler body (after parameter
validation): duplicate check via `find_one(\x7b"email": email\x7d)`, then
`insert_one` of `\x7b"email": email, "subscribed_at": datetime.utcnow()\x7d`.
`now` is the value `datetime.utcnow()` returns during this call;
`insertedId` is the `inserted_id` the driver reports for the insert. -/
def subscribe_to_newsletter (s : Store) (email : String) (now : Nat)
    (insertedId : Option Nat) : Except HTTPError String × Store :=
  let (existing, s1) := subscribersFindOne s fun sub => sub.email == email
  match existing with
  | some _ => (.error (.badRequest "Email already subscribed"), s1)
  | none =>
    let subscriber : SubscriberDoc := { email := email, subscribed_at := now }
    let (rid, s2) := subscribersInsertOne s1 subscriber insertedId
    match rid with
    | none => (.error (.internalError "Subscription failed"), s2)
    | some _ => (.ok "Subscription successful", s2)

/-- Modelled from the spec: the handler declares its parameter as
`email: EmailStr`, so FastAPI/pydantic validate the email format before
the handler body runs; the validator itself is library code outside this
repository, so it is kept abstract as the predicate `valid`.  A request
whose email fails validation is answered with a validation error and the
handler body — hence every store access — never executes. -/
def subscribe_endpoint (valid : String → Bool) (s : Store) (email : String) (now : Nat)
    (insertedId : Option Nat) : Except HTTPError String × Store :=
  if valid email then subscribe_to_newsletter s email now insertedId
  else (.error (.validationError "value is not a valid email address"), s)

/- ## Concrete documents and stores used to instantiate the theorems -/

def exTagDocker : Tag := { name := "Docker", color := "blue" }

def exTagMySQL : Tag := { name := "MySQL", color := "green" }

def exTagUbuntu : Tag := { name := "Ubuntu", color := "yellow" }

def exGuideFeatured : GuideDoc :=
  { oid := 1, title := "Nextcloud mit Redis und MySQL", description := "g1",
    content := none, icon := "fas fa-cloud", color := "blue",
    tags := [exTagDocker, exTagMySQL], featured := true,
    category_id := some 10, created_at := 5, updated_at := 5 }

def exGuidePlain : GuideDoc :=
  { oid := 2, title := "Sicherheit mit Fail2Ban", description := "g2",
    content := none, icon := "fas fa-shield-alt", color := "green",
    tags := [exTagDocker, exTagUbuntu], featured := false,
    category_id := none, created_at := 9, updated_at := 9 }

def exCatCloud : CategoryDoc :=
  { oid := 10, name := "Cloud und Storage", description := "c1",
    icon := "fas fa-cloud", color := "blue" }

def exCatDb : CategoryDoc :=
  { oid := 11, name := "Datenbanken", description := "c2",
    icon := "fas fa-database", color := "green" }

def exStore : Store :=
  { guides := [exGuideFeatured, exGuidePlain],
    categories := [exCatCloud, exCatDb],
    subscribers := [{ email := "abo@example.org", subscribed_at := 3 }] }

def exStoreNoTags : Store :=
  { guides := [{ exGuidePlain with tags := [] }], categories := [], subscribers := [] }

def exStoreEmpty : Store := { guides := [], categories := [], subscribers := [] }

def exCatCloudOut : CategoryOut :=
  { id := 10, name := "Cloud und Storage", description := "c1",
    icon := "fas fa-cloud", color := "blue", guide_count := 1 }

/- ## Lemmas about the sort model -/

theorem mem_insertByCreatedAtDesc {a g : GuideDoc} {l : List GuideDoc} :
    a ∈ insertByCreatedAtDesc g l ↔ a = g ∨ a ∈ l := by
  induction l with
  | nil => simp [insertByCreatedAtDesc]
  | cons x t ih =>
    simp only [insertByCreatedAtDesc]
    by_cases hc : x.created_at < g.created_at
    · rw [if_pos hc]
      simp [or_comm, or_left_comm]
    · rw [if_neg hc]
      simp [ih, or_left_comm]

theorem pairwise_insertByCreatedAtDesc (g : GuideDoc) (l : List GuideDoc)
    (hl : l.Pairwise fun a b => b.created_at ≤ a.created_at) :
    (insertByCreatedAtDesc g l).Pairwise fun a b => b.created_at ≤ a.created_at := by
  induction l with
  | nil => simp [insertByCreatedAtDesc]
  | cons x t ih =>
    rw [List.pairwise_cons] at hl
    obtain ⟨hx, ht⟩ := hl
    simp only [insertByCreatedAtDesc]
    by_cases hc : x.created_at < g.created_at
    · rw [if_pos hc]
      refine List.Pairwise.cons ?_ (List.Pairwise.cons hx ht)
      intro y hy
      rcases List.mem_cons.mp hy with rfl | hy
      · exact Nat.le_of_lt hc
      · exact Nat.le_trans (hx y hy) (Nat.le_of_lt hc)
    · rw [if_neg hc]
      refine List.Pairwise.cons ?_ (ih ht)
      intro y hy
      rcases mem_insertByCreatedAtDesc.mp hy with rfl | hy
      · exact Nat.le_of_not_lt hc
      · exact hx y hy

theorem perm_insertByCreatedAtDesc (g : GuideDoc) (l : List GuideDoc) :
    (insertByCreatedAtDesc g l).Perm (g :: l) := by
  induction l with
  | nil => simp [insertByCreatedAtDesc]
  | cons x t ih =>
    simp only [insertByCreatedAtDesc]
    by_cases hc : x.created_at < g.created_at
    · rw [if_pos hc]
    · rw [if_neg hc]
      exact (ih.cons x).trans (List.Perm.swap g x t)

theorem sorted_sortByCreatedAtDesc (l : List GuideDoc) :
    (sortByCreatedAtDesc l).Pairwise fun a b => b.created_at ≤ a.created_at := by
  induction l with
  | nil => simp [sortByCreatedAtDesc]
  | cons x t ih => exact pairwise_insertByCreatedAtDesc x _ ih

theorem perm_sortByCreatedAtDesc (l : List GuideDoc) :
    (sortByCreatedAtDesc l).Perm l := by
  induction l with
  | nil => simp [sortByCreatedAtDesc]
  | cons x t ih =>
    exact (perm_insertByCreatedAtDesc x (sortByCreatedAtDesc t)).trans (ih.cons x)

theorem length_sortByCreatedAtDesc (l : List GuideDoc) :
    (sortByCreatedAtDesc l).length = l.length :=
  (perm_sortByCreatedAtDesc l).length_eq

/- ## Lemmas about the aggregation pipeline -/

theorem unwind_names (gs : List GuideDoc) :
    (unwindTags gs).map (fun d => d.2.name)
      = (gs.flatMap GuideDoc.tags).map Tag.name := by
  induction gs with
  | nil => rfl
  | cons g t ih =>
    simp only [unwindTags, List.flatMap_cons, List.map_append, List.map_map] at ih ⊢
    rw [ih]
    rfl

theorem get_unique_technologies_count_eq (s : Store) :
    (get_unique_technologies_count s).1
      = ((s.guides.flatMap GuideDoc.tags).map Tag.name).dedup.length := by
  unfold get_unique_technologies_count groupByTagName countStage
  rw [unwind_names]
  cases h : ((s.guides.flatMap GuideDoc.tags).map Tag.name).dedup with
  | nil => simp [h]
  | cons c cs => simp [h]

/- ## Lemmas about the categories loop -/

theorem get_categories_loop_eq (cats : List CategoryDoc) (s : Store) :
    get_categories_loop cats s =
      (cats.map fun cat =>
        { id := cat.oid, name := cat.name, description := cat.description,
          icon := cat.icon, color := cat.color,
          guide_count := s.guides.countP fun g => g.category_id == some cat.oid }, s) := by
  induction cats with
  | nil => rfl
  | cons c rest ih => simp [get_categories_loop, guidesCountDocuments, ih]

theorem flatMap_tags_nil {gs : List GuideDoc} (h : ∀ g ∈ gs, g.tags = []) :
    gs.flatMap GuideDoc.tags = [] := by
  induction gs with
  | nil => rfl
  | cons g t ih =>
    rw [List.flatMap_cons, h g (List.mem_cons_self g t), List.nil_append]
    exact ih fun g' hg' => h g' (List.mem_cons_of_mem g hg')

/- ## Claim theorems -/

/-- C1: `get_stats` returns a `Stats` whose `technologies` field equals the
number of distinct tag names occurring across all guides' tag lists; it is
`0` when no guide has any tag, and a name occurring in several guides is
counted once (the count is the cardinality of the set of names). -/
theorem get_stats_technologies_distinct (s : Store) :
    (get_stats s).1.technologies
        = ((s.guides.flatMap GuideDoc.tags).map Tag.name).toFinset.card ∧
    ((∀ g ∈ s.guides, g.tags = []) → (get_stats s).1.technologies = 0) := by
  have h1 : (get_stats s).1.technologies = (get_unique_technologies_count s).1 := rfl
  constructor
  · rw [h1, get_unique_technologies_count_eq, List.card_toFinset]
  · intro hall
    rw [h1, get_unique_technologies_count_eq, flatMap_tags_nil hall]
    rfl

/-- C1 witness: on a store whose single guide has no tags, `technologies`
evaluates to `0`. -/
theorem get_stats_technologies_distinct_witness :
    (get_stats exStoreNoTags).1.technologies = 0 :=
  (get_stats_technologies_distinct exStoreNoTags).2 (by decide)

/-- C2 counterexample: with two guides stored, calling the handler with
`limit=0` returns both guides — a MongoDB cursor limit of `0` means "no
limit" — rather than the empty sequence the claim requires, and its length
is not at most `0`. -/
theorem latest_guides_limit_zero_counterexample :
    (get_latest_guides exStore 0).1.length = 2 ∧
    (get_latest_guides exStore 0).1 ≠ [] := by
  constructor
  · decide
  · decide

/-- C2 (amended): for every store and positive limit `n`,
`get_latest_guides` returns at most `n` guides; the result is always
ordered by `created_at` descending; the handler default for an omitted
`limit` is `2`; but a limit of `0` does not yield an empty sequence —
MongoDB treats `limit(0)` as setting no limit, so the handler then returns
all stored guides (sorted by `created_at` descending). -/
theorem latest_guides_amended (s : Store) (n : Nat) :
    (0 < n → (get_latest_guides s n).1.length ≤ n) ∧
    (get_latest_guides s n).1.Pairwise (fun a b => b.created_at ≤ a.created_at) ∧
    (get_latest_guides s 0).1 = sortByCreatedAtDesc s.guides ∧
    (get_latest_guides s 0).1.Perm s.guides ∧
    get_latest_guides_default s = get_latest_guides s 2 := by
  refine ⟨?_, ?_, rfl, perm_sortByCreatedAtDesc s.guides, rfl⟩
  · intro hn
    have hn' : n ≠ 0 := Nat.pos_iff_ne_zero.mp hn
    unfold get_latest_guides guidesFindSortLimit mongoLimit
    simp only [if_neg hn']
    rw [List.length_take]
    exact inf_le_left
  · unfold get_latest_guides guidesFindSortLimit mongoLimit
    by_cases h0 : n = 0
    · simpa [h0] using sorted_sortByCreatedAtDesc s.guides
    · simp only [if_neg h0]
      exact List.Pairwise.sublist (List.take_sublist n _) (sorted_sortByCreatedAtDesc s.guides)

/-- C2 witness: at limit `1` the concrete store yields at most one guide. -/
theorem latest_guides_amended_witness :
    (get_latest_guides exStore 1).1.length ≤ 1 :=
  (latest_guides_amended exStore 1).1 (by decide)

/-- C3: subscribing an email held by no subscriber succeeds with status 201,
and subscribing the same email again fails with status 400 and an
"already subscribed" message (the handler's detail string is
"Email already subscribed"). -/
theorem subscribe_twice_conflict (s : Store) (e : String) (t1 t2 : Nat) (i1 i2 : Nat)
    (h : ∀ sub ∈ s.subscribers, sub.email ≠ e) :
    subscribeStatus (subscribe_to_newsletter s e t1 (some i1)).1 = 201 ∧
    (∃ p, (subscribe_to_newsletter (subscribe_to_newsletter s e t1 (some i1)).2 e t2
            (some i2)).1 = .error (.badRequest (p ++ "already subscribed"))) ∧
    subscribeStatus (subscribe_to_newsletter (subscribe_to_newsletter s e t1 (some i1)).2
        e t2 (some i2)).1 = 400 := by
  have hf : s.subscribers.find? (fun sub => sub.email == e) = none := by
    rw [List.find?_eq_none]
    intro x hx
    simpa using h x hx
  have h1 : subscribe_to_newsletter s e t1 (some i1)
      = (.ok "Subscription successful",
         { s with subscribers := s.subscribers ++ [{ email := e, subscribed_at := t1 }] }) := by
    simp [subscribe_to_newsletter, subscribersFindOne, subscribersInsertOne, hf]
  have hsome : ((s.subscribers ++ [({ email := e, subscribed_at := t1 } : SubscriberDoc)]).find?
      (fun sub => sub.email == e)).isSome := by
    rw [List.find?_isSome]
    exact ⟨{ email := e, subscribed_at := t1 }, by simp, by simp⟩
  obtain ⟨y, hy⟩ := Option.isSome_iff_exists.mp hsome
  have h2 : (subscribe_to_newsletter
      { s with subscribers := s.subscribers ++ [{ email := e, subscribed_at := t1 }] } e t2
      (some i2)).1 = .error (.badRequest "Email already subscribed") := by
    simp [subscribe_to_newsletter, subscribersFindOne, hy]
  refine ⟨?_, ⟨"Email ", ?_⟩, ?_⟩
  · rw [h1]
    rfl
  · rw [h1, h2]
    rfl
  · rw [h1, h2]
    rfl


/-- C3 witness: concrete double subscription of the same address on the
empty store. -/
theorem subscribe_twice_conflict_witness :
    subscribeStatus (subscribe_to_newsletter exStoreEmpty "a@b.cd" 1 (some 7)).1 = 201 ∧
    (∃ p, (subscribe_to_newsletter (subscribe_to_newsletter exStoreEmpty "a@b.cd" 1 (some 7)).2
            "a@b.cd" 2 (some 8)).1 = .error (.badRequest (p ++ "already subscribed"))) ∧
    subscribeStatus (subscribe_to_newsletter
        (subscribe_to_newsletter exStoreEmpty "a@b.cd" 1 (some 7)).2 "a@b.cd" 2 (some 8)).1
        = 400 :=
  subscribe_twice_conflict exStoreEmpty "a@b.cd" 1 2 7 8 (by decide)

/-- C4: `get_featured_guide` answers the 404 "No featured guide found"
error exactly when no stored guide has `featured = true`, and any guide it
returns has `featured = true`. -/
theorem featured_guide_spec (s : Store) :
    ((get_featured_guide s).1 = Except.error (HTTPError.notFound "No featured guide found")
        ↔ ∀ g ∈ s.guides, g.featured = false) ∧
    ∀ g, (get_featured_guide s).1 = Except.ok g → g.featured = true := by
  cases hf : s.guides.find? (fun g => g.featured) with
  | none =>
    have hres : (get_featured_guide s).1
        = Except.error (HTTPError.notFound "No featured guide found") := by
      simp [get_featured_guide, guidesFindOne, hf]
    have hall : ∀ g ∈ s.guides, g.featured = false := by
      intro g hg
      simpa using List.find?_eq_none.mp hf g hg
    refine ⟨iff_of_true hres hall, ?_⟩
    intro g hg
    rw [hres] at hg
    exact Except.noConfusion hg
  | some g0 =>
    have hres : (get_featured_guide s).1 = Except.ok g0 := by
      simp [get_featured_guide, guidesFindOne, hf]
    have hg0 : g0.featured = true := List.find?_some hf
    have hmem : g0 ∈ s.guides := List.mem_of_find?_eq_some hf
    refine ⟨iff_of_false ?_ ?_, ?_⟩
    · rw [hres]
      intro hcontra
      exact Except.noConfusion hcontra
    · intro hall
      rw [hall g0 hmem] at hg0
      exact Bool.noConfusion hg0
    · intro g hg
      rw [hres] at hg
      injection hg with hg'
      subst hg'
      exact hg0

/-- C4 witness: the concrete store returns its featured guide, whose
`featured` field is `true`. -/
theorem featured_guide_spec_witness : exGuideFeatured.featured = true :=
  (featured_guide_spec exStore).2 exGuideFeatured rfl

/-- C5: every category returned by `get_categories` carries a
`guide_count` equal to the number of stored guides whose `category_id`
field equals that category's id, and in particular `0` when no guide's
`category_id` matches. -/
theorem categories_guide_count_spec (s : Store) (c : CategoryOut)
    (hc : c ∈ (get_categories s).1) :
    c.guide_count = (s.guides.filter fun g => g.category_id == some c.id).length ∧
    ((∀ g ∈ s.guides, g.category_id ≠ some c.id) → c.guide_count = 0) := by
  have hout : (get_categories s).1 = s.categories.map fun cat =>
      ({ id := cat.oid, name := cat.name, description := cat.description,
         icon := cat.icon, color := cat.color,
         guide_count := s.guides.countP fun g => g.category_id == some cat.oid } :
        CategoryOut) := by
    simp [get_categories, categoriesFind, get_categories_loop_eq]
  rw [hout] at hc
  obtain ⟨cat, hcat, hceq⟩ := List.mem_map.mp hc
  subst hceq
  constructor
  · exact List.countP_eq_length_filter _ _
  · intro hnone
    rw [List.countP_eq_zero]
    intro g hg
    simpa using hnone g hg

/-- C5 witness: the enriched "Cloud und Storage" category of the concrete
store has `guide_count = 1`, matching the single guide referencing it. -/
theorem categories_guide_count_spec_witness :
    exCatCloudOut.guide_count
        = (exStore.guides.filter fun g => g.category_id == some exCatCloudOut.id).length ∧
    ((∀ g ∈ exStore.guides, g.category_id ≠ some exCatCloudOut.id) →
      exCatCloudOut.guide_count = 0) :=
  categories_guide_count_spec exStore exCatCloudOut (by decide)

/-- C6: each successful insert writes a subscriber document whose
`subscribed_at` is the `datetime.utcnow()` value of that very call: two
calls made at clock values `t1` and `t2` append records carrying `t1`
and `t2` respectively, so the timestamp is taken freshly per call rather
than fixed once at process start (the handler builds the document with a
fresh `datetime.utcnow()`; the module-level default of the
`NewsletterSubscriber` pydantic model is not used on this path). -/
theorem subscribed_at_fresh_per_call (s : Store) (e1 e2 : String) (t1 t2 : Nat)
    (r1 r2 : Option Nat)
    (h1 : ∀ sub ∈ s.subscribers, sub.email ≠ e1) (h2 : e2 ≠ e1)
    (h3 : ∀ sub ∈ s.subscribers, sub.email ≠ e2) :
    ((subscribe_to_newsletter s e1 t1 r1).2.subscribers
        = s.subscribers ++ [{ email := e1, subscribed_at := t1 }]) ∧
    ((subscribe_to_newsletter (subscribe_to_newsletter s e1 t1 r1).2 e2 t2 r2).2.subscribers
        = s.subscribers ++ [{ email := e1, subscribed_at := t1 },
                            { email := e2, subscribed_at := t2 }]) := by
  have hf1 : s.subscribers.find? (fun sub => sub.email == e1) = none := by
    rw [List.find?_eq_none]
    intro x hx
    simpa using h1 x hx
  have hst1 : (subscribe_to_newsletter s e1 t1 r1).2
      = { s with subscribers := s.subscribers ++ [{ email := e1, subscribed_at := t1 }] } := by
    cases r1 with
    | none => simp [subscribe_to_newsletter, subscribersFindOne, subscribersInsertOne, hf1]
    | some i => simp [subscribe_to_newsletter, subscribersFindOne, subscribersInsertOne, hf1]
  have hf2 : (s.subscribers ++ [({ email := e1, subscribed_at := t1 } : SubscriberDoc)]).find?
      (fun sub => sub.email == e2) = none := by
    rw [List.find?_eq_none]
    intro x hx
    rcases List.mem_append.mp hx with hx | hx
    · simpa using h3 x hx
    · rcases List.mem_singleton.mp hx with rfl
      simpa using Ne.symm h2
  have hst2 : (subscribe_to_newsletter
      { s with subscribers := s.subscribers ++ [{ email := e1, subscribed_at := t1 }] }
      e2 t2 r2).2
      = { s with subscribers := (s.subscribers ++ [{ email := e1, subscribed_at := t1 }])
            ++ [{ email := e2, subscribed_at := t2 }] } := by
    cases r2 with
    | none => simp [subscribe_to_newsletter, subscribersFindOne, subscribersInsertOne, hf2]
    | some i => simp [subscribe_to_newsletter, subscribersFindOne, subscribersInsertOne, hf2]
  refine ⟨by rw [hst1], ?_⟩
  rw [hst1, hst2]
  simp

/-- C6 witness: two concrete calls at clocks 5 and 9 append records
stamped 5 and 9. -/
theorem subscribed_at_fresh_per_call_witness :
    ((subscribe_to_newsletter exStoreEmpty "a@b.cd" 5 (some 1)).2.subscribers
        = exStoreEmpty.subscribers ++ [{ email := "a@b.cd", subscribed_at := 5 }]) ∧
    ((subscribe_to_newsletter (subscribe_to_newsletter exStoreEmpty "a@b.cd" 5 (some 1)).2
        "e@f.gh" 9 (some 2)).2.subscribers
        = exStoreEmpty.subscribers ++ [{ email := "a@b.cd", subscribed_at := 5 },
            { email := "e@f.gh", subscribed_at := 9 }]) :=
  subscribed_at_fresh_per_call exStoreEmpty "a@b.cd" "e@f.gh" 5 9 (some 1) (some 2)
    (by decide) (by decide) (by decide)

/-- A validator rejecting every address, used to instantiate the
validation theorem at a concrete input. -/
def rejectAllEmails : String → Bool := fun _ => false

/-- C7: a request whose email fails the `EmailStr` validation is answered
with a validation error (HTTP 422) and the store — in particular the
subscribers collection — is exactly what it was before the call, because
the handler body, and with it every store read or write, never runs. -/
theorem invalid_email_rejected_before_store (valid : String → Bool) (s : Store)
    (e : String) (t : Nat) (rid : Option Nat) (h : valid e = false) :
    (subscribe_endpoint valid s e t rid).2 = s ∧
    (∃ d, (subscribe_endpoint valid s e t rid).1 = .error (.validationError d)) ∧
    subscribeStatus (subscribe_endpoint valid s e t rid).1 = 422 := by
  have hcond : ¬ (valid e = true) := by simp [h]
  unfold subscribe_endpoint
  rw [if_neg hcond]
  exact ⟨rfl, ⟨"value is not a valid email address", rfl⟩, rfl⟩

/-- C7 witness: the malformed address "not-an-email" is rejected with 422
and the concrete store is untouched. -/
theorem invalid_email_rejected_before_store_witness :
    (subscribe_endpoint rejectAllEmails exStore "not-an-email" 7 (some 3)).2 = exStore ∧
    (∃ d, (subscribe_endpoint rejectAllEmails exStore "not-an-email" 7 (some 3)).1
        = .error (.validationError d)) ∧
    subscribeStatus (subscribe_endpoint rejectAllEmails exStore "not-an-email" 7 (some 3)).1
        = 422 :=
  invalid_email_rejected_before_store rejectAllEmails exStore "not-an-email" 7 (some 3) rfl

/-- C8: past the duplicate check, the outcome is decided by the
`inserted_id` the driver reports: no id → HTTP 500 "Subscription failed";
an id → HTTP 201 with the JSON success message body. -/
theorem insert_id_decides_outcome (s : Store) (e : String) (t : Nat) (rid : Option Nat)
    (h : ∀ sub ∈ s.subscribers, sub.email ≠ e) :
    (rid = none →
      (subscribe_to_newsletter s e t rid).1 = .error (.internalError "Subscription failed") ∧
      subscribeStatus (subscribe_to_newsletter s e t rid).1 = 500) ∧
    (∀ i, rid = some i →
      (subscribe_to_newsletter s e t rid).1 = .ok "Subscription successful" ∧
      subscribeStatus (subscribe_to_newsletter s e t rid).1 = 201) := by
  have hf : s.subscribers.find? (fun sub => sub.email == e) = none := by
    rw [List.find?_eq_none]
    intro x hx
    simpa using h x hx
  constructor
  · rintro rfl
    constructor <;>
      simp [subscribe_to_newsletter, subscribersFindOne, subscribersInsertOne, hf,
        subscribeStatus, HTTPError.statusCode]
  · rintro i rfl
    constructor <;>
      simp [subscribe_to_newsletter, subscribersFindOne, subscribersInsertOne, hf,
        subscribeStatus]

/-- C8 witness: on the empty store an insert reporting no id yields the
500 "Subscription failed" outcome. -/
theorem insert_id_decides_outcome_witness :
    (subscribe_to_newsletter exStoreEmpty "w@x.yz" 4 none).1
        = .error (.internalError "Subscription failed") ∧
    subscribeStatus (subscribe_to_newsletter exStoreEmpty "w@x.yz" 4 none).1 = 500 :=
  (insert_id_decides_outcome exStoreEmpty "w@x.yz" 4 none (by decide)).1 rfl

/-- C9: the four read endpoints leave all three collections unchanged:
each returns exactly the store it was given. -/
theorem read_endpoints_preserve_store (s : Store) (n : Nat) :
    (get_stats s).2 = s ∧ (get_featured_guide s).2 = s ∧
    (get_categories s).2 = s ∧ (get_latest_guides s n).2 = s := by
  refine ⟨rfl, ?_, ?_, rfl⟩
  · unfold get_featured_guide guidesFindOne
    cases s.guides.find? (fun g => g.featured) <;> rfl
  · simp [get_categories, categoriesFind, get_categories_loop_eq]

/-- C10: whenever subscribe answers 400 (duplicate email), the store — in
particular the subscribers collection — is exactly what it was before the
call: the existence check precedes the insert and nothing is written on
that path. -/
theorem conflict_leaves_store_unchanged (s : Store) (e : String) (t : Nat)
    (rid : Option Nat)
    (h : ∃ d, (subscribe_to_newsletter s e t rid).1 = .error (.badRequest d)) :
    (subscribe_to_newsletter s e t rid).2 = s := by
  obtain ⟨d, hd⟩ := h
  cases hf : s.subscribers.find? (fun sub => sub.email == e) with
  | some y => simp [subscribe_to_newsletter, subscribersFindOne, hf]
  | none =>
    exfalso
    cases rid with
    | none =>
      simp [subscribe_to_newsletter, subscribersFindOne, subscribersInsertOne, hf] at hd
    | some i =>
      simp [subscribe_to_newsletter, subscribersFindOne, subscribersInsertOne, hf] at hd

/-- C10 witness: subscribing the already-present address of the concrete
store leaves it unchanged. -/
theorem conflict_leaves_store_unchanged_witness :
    (subscribe_to_newsletter exStore "abo@example.org" 11 (some 4)).2 = exStore :=
  conflict_leaves_store_unchanged exStore "abo@example.org" 11 (some 4)
    ⟨"Email already subscribed", rfl⟩
